import Mathlib

/-!
# unit/test-uhid.c : the scripted uHID harness

A shallow embedding of `unit/test-uhid.c`.

* Bytes are natural numbers, a buffer is a `List Nat`; a `NULL` buffer of
  size 0 is the empty list.
* Pointers to the collaborators' objects (the `bt_uhid` handle, GLib source
  ids, file descriptors) are numbers, `0` standing for `NULL` / "no source".
* Every call the harness makes to a collaborator (tester, GLib, bt_uhid,
  libc) is appended to a trace, in program order; what the collaborator
  returns is an input of the embedded function.
* `g_assert*` failures and invalid memory accesses end the process; the
  embedded functions return them as `Except.error`.
-/

namespace TestUhid

/-! ## Data model -/

/-- The C `struct test_pdu`: one frame of a script. -/
structure test_pdu where
  valid : Bool
  data : List Nat
  size : Nat
  deriving DecidableEq, Repr

/-- Modelled from the spec: the device-type tag declared in
`src/shared/uhid.h`, which is not among the sources; the constructors are the
two tags this file names. -/
inductive bt_uhid_type where
  | BT_UHID_NONE
  | BT_UHID_MOUSE
  deriving DecidableEq, Repr

/-- The libc `struct iovec`, with the bytes `iov_base` points to. -/
structure iovec where
  iov_base : List Nat
  iov_len : Nat
  deriving DecidableEq, Repr

/-- Modelled from the spec: the initialiser `UTIL_IOV_INIT` of
`src/shared/util.h`, which is not among the sources: the base points to the
listed bytes and the length is their number. -/
def UTIL_IOV_INIT (args : List Nat) : iovec :=
  { iov_base := args, iov_len := args.length }

/-- The C `struct test_device`. -/
structure test_device where
  name : String
  vendor : Nat
  product : Nat
  version : Nat
  country : Nat
  type : bt_uhid_type
  map : iovec
  deriving DecidableEq, Repr

/-- The C `struct test_data`; a `NULL` device is `none`, and `pdu_list` is
the array the pointer addresses. -/
structure test_data where
  test_name : String
  test_device : Option test_device
  pdu_list : List test_pdu
  deriving DecidableEq, Repr

/-- The C `struct context`. -/
structure context where
  uhid : Nat
  source : Nat
  process : Nat
  fd : Int
  pdu_offset : Nat
  data : test_data
  deriving DecidableEq, Repr

/-- The event kinds of `linux/uhid.h` that this file names. -/
inductive uhid_event_type where
  | UHID_CREATE
  | UHID_DESTROY
  | UHID_FEATURE_ANSWER
  | UHID_INPUT
  | UHID_OUTPUT
  | UHID_FEATURE
  deriving DecidableEq, Repr

/-- The `struct uhid_event` of `linux/uhid.h`, as far as this file sets it:
every static event below sets `.type` only. -/
structure uhid_event where
  type : uhid_event_type
  deriving DecidableEq, Repr

/-- The two test functions a scenario can be registered with. -/
inductive test_func where
  | test_client
  | test_server
  deriving DecidableEq, Repr

/-- What one `tester_add(name, &data, NULL, function, NULL)` registers. -/
structure test_case where
  name : String
  data : test_data
  function : test_func
  deriving DecidableEq, Repr

/-! ## Scenario construction -/

/-- The `event(args...)` initialiser: a valid frame pointing at `args`, whose
size is `sizeof(*args)`, the number of bytes of the object. -/
def event (args : List Nat) : test_pdu :=
  { valid := true, data := args, size := args.length }

/-- The zero initialiser that `define_test_device` appends to `pdus[]`. -/
def terminator : test_pdu :=
  { valid := false, data := [], size := 0 }

/-- The duplication `util_memdup(pdus, sizeof(pdus))`: a copy of the array. -/
def util_memdup (pdus : List test_pdu) : List test_pdu := pdus

/-- The duplication `g_strdup(name)`: a copy of the string. -/
def g_strdup (name : String) : String := name

/-- The body of `define_test_device(name, function, device, args...)`. -/
def define_test_device (name : String) (function : test_func)
    (device : Option test_device) (args : List test_pdu) : test_case :=
  let pdus := args ++ [terminator]
  { name := name
    data := { test_name := g_strdup name
              test_device := device
              pdu_list := util_memdup pdus }
    function := function }

/-- The body of `define_test(name, function, args...)`. -/
def define_test (name : String) (function : test_func) (args : List test_pdu) :
    test_case :=
  define_test_device name function none args

def ev_create : uhid_event := { type := .UHID_CREATE }

def ev_destroy : uhid_event := { type := .UHID_DESTROY }

def ev_feature_answer : uhid_event := { type := .UHID_FEATURE_ANSWER }

def ev_input : uhid_event := { type := .UHID_INPUT }

def ev_output : uhid_event := { type := .UHID_OUTPUT }

def ev_feature : uhid_event := { type := .UHID_FEATURE }

/-- The static `mx_anywhere_3` device. -/
def mx_anywhere_3 : test_device :=
  { name := "MX Anywhere 3"
    vendor := 0x46D
    product := 0xB025
    version := 0x14
    country := 0x00
    type := .BT_UHID_MOUSE
    map := UTIL_IOV_INIT
      [0x05, 0x01, 0x09, 0x02, 0xA1, 0x01, 0x85, 0x02,
       0x09, 0x01, 0xA1, 0x00, 0x95, 0x10, 0x75, 0x01,
       0x15, 0x00, 0x25, 0x01, 0x05, 0x09, 0x19, 0x01,
       0x29, 0x10, 0x81, 0x02, 0x05, 0x01, 0x16, 0x01,
       0xF8, 0x26, 0xFF, 0x07, 0x75, 0x0C, 0x95, 0x02,
       0x09, 0x30, 0x09, 0x31, 0x81, 0x06, 0x15, 0x81,
       0x25, 0x7F, 0x75, 0x08, 0x95, 0x01, 0x09, 0x38,
       0x81, 0x06, 0x95, 0x01, 0x05, 0x0C, 0x0A, 0x38,
       0x02, 0x81, 0x06, 0xC0, 0xC0, 0x06, 0x43, 0xFF,
       0x0A, 0x02, 0x02, 0xA1, 0x01, 0x85, 0x11, 0x75,
       0x08, 0x95, 0x13, 0x15, 0x00, 0x26, 0xFF, 0x00,
       0x09, 0x02, 0x81, 0x00, 0x09, 0x02, 0x91, 0x00,
       0xC0] }

/-- The scenarios `main` registers, in registration order.  `image ev` is the
memory image of the static event `ev` (its layout comes from `linux/uhid.h`,
so it is a parameter). -/
def main (image : uhid_event → List Nat) : List test_case :=
  [ define_test "/uhid/command/create" .test_client [event (image ev_create)],
    define_test "/uhid/command/destroy" .test_client [event (image ev_destroy)],
    define_test "/uhid/command/feature_answer" .test_client
      [event (image ev_feature_answer)],
    define_test "/uhid/command/input" .test_client [event (image ev_input)],
    define_test "/uhid/event/output" .test_server [event (image ev_output)],
    define_test "/uhid/event/feature" .test_server [event (image ev_feature)],
    define_test_device "/uhid/device/mx_anywhere_3" .test_client
      (some mx_anywhere_3) [event (image ev_create)] ]

/-- The scenario registered under `name`, if any (the first one). -/
def registered (image : uhid_event → List Nat) (name : String) : Option test_case :=
  (main image).find? (fun t => t.name == name)

/-! ## Collaborators -/

/-- A call made by the harness to one of its collaborators. -/
inductive Call where
  | tester_test_passed
  | tester_test_failed
  | tester_test_abort
  | tester_debug (msg : String)
  | g_print (cond : Nat)
  | util_hexdump (dir : Char) (buf : List Nat)
  | g_source_remove (id : Nat)
  | bt_uhid_unregister_all (uhid : Nat)
  | bt_uhid_unref (uhid : Nat)
  | g_free_test_name
  | g_free_pdu_list
  | g_free_context
  | getuid
  | bt_uhid_new_default
  | socketpair
  | bt_uhid_new (fd : Int)
  | g_io_add_watch (fd : Int)
  | bt_uhid_create (uhid : Nat) (name : String)
      (vendor product version country : Nat) (type : bt_uhid_type)
      (rd_data : List Nat) (rd_size : Nat)
  | bt_uhid_destroy (uhid : Nat) (force : Bool)
  | bt_uhid_send (uhid : Nat) (ev : uhid_event)
  | bt_uhid_input (uhid : Nat) (number : Nat) (data : List Nat) (size : Nat)
  | bt_uhid_register (uhid : Nat) (event : uhid_event_type)
  | g_idle_add
  | write (fd : Int) (buf : List Nat) (count : Nat)
  | read (fd : Int)
  deriving DecidableEq, Repr

/-- The world outside the context: the calls made so far, and what GLib and
the allocator hold for this session. -/
structure World where
  /-- Calls to collaborators, oldest first. -/
  trace : List Call
  /-- GLib holds the channel watch that dispatches `test_handler`. -/
  watch : Bool
  /-- Number of idle sources GLib holds that dispatch `send_pdu`. -/
  idle : Nat
  /-- The context has been passed to `g_free`. -/
  freed : Bool
  /-- The event kinds for which the handle holds a callback of this file:
  `handle_output` for `UHID_OUTPUT`, `handle_feature` for `UHID_FEATURE`. -/
  handlers : List uhid_event_type
  deriving DecidableEq, Repr

/-- The world before a scenario run. -/
def World.start : World :=
  { trace := [], watch := false, idle := 0, freed := false, handlers := [] }

/-- Record a call. -/
def World.call (w : World) (c : Call) : World :=
  { w with trace := w.trace ++ [c] }

/-- Why the process stops: a failed `g_assert*` (abort), or an access through
an invalid pointer. -/
inductive Fault where
  | assertion
  | segfault
  deriving DecidableEq, Repr

/-- What the external calls of one scenario run return. -/
structure Env where
  /-- Result of `getuid()`. -/
  uid : Nat
  /-- Result of `bt_uhid_new_default()`, 0 for `NULL`. -/
  new_default : Nat
  /-- Result of `socketpair(...)`. -/
  socketpair_err : Int
  /-- The descriptors `socketpair` stores in `sv`. -/
  sv0 : Int
  sv1 : Int
  /-- Result of `bt_uhid_new(sv[0])`, 0 for `NULL`. -/
  new_uhid : Nat
  /-- Result of `g_io_add_watch(...)`. -/
  watch_id : Nat
  /-- Results of `bt_uhid_create`, `bt_uhid_destroy`, `bt_uhid_send` and
  `bt_uhid_input`. -/
  create_err : Int
  destroy_err : Int
  send_err : Int
  input_err : Int
  /-- Result of `g_idle_add(send_pdu, context)`. -/
  idle_id : Nat
  /-- Result of `tester_use_debug()`. -/
  use_debug : Bool
  deriving DecidableEq, Repr

/-- The `GIOCondition` bits of GLib. -/
def G_IO_IN : Nat := 1

def G_IO_ERR : Nat := 8

def G_IO_HUP : Nat := 16

def G_IO_NVAL : Nat := 32

/-- What `read(fd, buf, sizeof(buf))` did: `none` is the result -1, and
`some bytes` is the result `bytes.length` with `bytes` stored at the start of
`buf`. -/
abbrev read_result := Option (List Nat)

/-- The `ssize_t` that `read` returned. -/
def read_len : read_result → Int
  | none => -1
  | some bytes => bytes.length

/-- The contents at the start of `buf` after `read`. -/
def read_buf : read_result → List Nat
  | none => []
  | some bytes => bytes

/-- The test `memcmp(a, b, n) == 0`. -/
def memcmp_eq (a b : List Nat) (n : Nat) : Bool :=
  a.take n == b.take n

/-! ## Teardown -/

/-- The C `test_free`. -/
def test_free (_data : test_data) (w : World) : World :=
  (w.call .g_free_test_name).call .g_free_pdu_list

/-- The C `destroy_context`. -/
def destroy_context (ctx : context) (w : World) : World :=
  let w := if ctx.source > 0 then
      { w.call (.g_source_remove ctx.source) with watch := false }
    else w
  let w := { w.call (.bt_uhid_unregister_all ctx.uhid) with handlers := [] }
  let w := w.call (.bt_uhid_unref ctx.uhid)
  let w := test_free ctx.data w
  { w.call .g_free_context with freed := true }

/-- The C `context_quit` on a valid pointer; `user_data` is `none` for `NULL`,
and otherwise the contents of the live context it points to.  The C function
always returns `FALSE`. -/
def context_quit (user_data : Option context) (w : World) : World :=
  match user_data with
  | none => w
  | some ctx =>
    let w := if ctx.process > 0 then
        { w.call (.g_source_remove ctx.process) with idle := w.idle - 1 }
      else w
    let w := destroy_context ctx w
    w.call .tester_test_passed

/-- A call `context_quit(user_data)` through a pointer that may dangle.  After
the `NULL` check the function reads `context->process`; once the context has
been passed to `g_free` that is an access through an invalid pointer.  On a
live context the call is `context_quit`. -/
def context_quit_call (user_data : Option context) (w : World) : Except Fault World :=
  match user_data with
  | none => .ok w
  | some ctx =>
    if w.freed then .error .segfault
    else .ok (context_quit (some ctx) w)

/-! ## Event-loop callbacks -/

/-- The C `send_pdu`; `len` is what `write` returns.  The result carries the
updated context and the `gboolean` returned to GLib. -/
def send_pdu (use_debug : Bool) (len : Int) (ctx : context) (w : World) :
    Except Fault (context × World × Bool) :=
  match ctx.data.pdu_list[ctx.pdu_offset]? with
  | none => .error .segfault
  | some pdu =>
    let ctx := { ctx with pdu_offset := (ctx.pdu_offset + 1) % 2 ^ 32 }
    let w := w.call (.write ctx.fd pdu.data pdu.size)
    let w := if use_debug then
        w.call (.util_hexdump '<' (pdu.data.take len.toNat))
      else w
    if len ≠ (pdu.size : Int) then .error .assertion
    else .ok ({ ctx with process := 0 }, w, false)

/-- The C `context_process`; `idle_id` is what `g_idle_add` returns. -/
def context_process (idle_id : Nat) (ctx : context) (w : World) :
    Except Fault (context × World) :=
  match ctx.data.pdu_list[ctx.pdu_offset]? with
  | none => .error .segfault
  | some pdu =>
    if !pdu.valid then .ok (ctx, context_quit (some ctx) w)
    else
      .ok ({ ctx with process := idle_id },
           { w.call .g_idle_add with idle := w.idle + 1 })

/-- The C `test_handler`; `rd` is what `read` does, `idle_id` what
`g_idle_add` returns.  The address of the frame is computed before the
condition is looked at, but the frame is only read from on the data path. -/
def test_handler (use_debug : Bool) (cond : Nat) (rd : read_result)
    (idle_id : Nat) (ctx : context) (w : World) :
    Except Fault (context × World × Bool) :=
  let pdu := ctx.data.pdu_list[ctx.pdu_offset]?
  let ctx := { ctx with pdu_offset := (ctx.pdu_offset + 1) % 2 ^ 32 }
  if cond &&& (G_IO_NVAL ||| G_IO_ERR ||| G_IO_HUP) ≠ 0 then
    .ok ({ ctx with source := 0 }, w.call (.g_print cond), false)
  else
    let w := w.call (.read ctx.fd)
    let len := read_len rd
    let buf := read_buf rd
    if ¬ (len > 0) then .error .assertion
    else
      let w := if use_debug then w.call (.util_hexdump '>' buf) else w
      match pdu with
      | none => .error .segfault
      | some pdu =>
        if len ≠ (pdu.size : Int) then .error .assertion
        else if ¬ (memcmp_eq buf pdu.data pdu.size = true) then .error .assertion
        else
          match context_process idle_id ctx w with
          | .error e => .error e
          | .ok (ctx, w) => .ok (ctx, w, true)

/-- The C `handle_output`. -/
def handle_output (ev : uhid_event) (user_data : Option context) (w : World) :
    Except Fault World :=
  if ev.type ≠ .UHID_OUTPUT then .error .assertion
  else .ok (context_quit user_data w)

/-- The C `handle_feature`. -/
def handle_feature (ev : uhid_event) (user_data : Option context) (w : World) :
    Except Fault World :=
  if ev.type ≠ .UHID_FEATURE then .error .assertion
  else .ok (context_quit user_data w)

/-! ## Session creation and the two test functions -/

/-- The C `create_context`.  The result is `none` for `NULL`. -/
def create_context (env : Env) (data : test_data) (w : World) :
    Except Fault (Option context × World) :=
  let ctx : context :=
    { uhid := 0, source := 0, process := 0, fd := 0, pdu_offset := 0, data := data }
  let w := w.call .getuid
  if data.test_device.isSome && env.uid == 0 then
    let w := w.call .bt_uhid_new_default
    let ctx := { ctx with uhid := env.new_default }
    if ctx.uhid == 0 then
      let w := w.call .tester_test_abort
      let w := context_quit (some ctx) w
      .ok (none, w)
    else .ok (some ctx, w)
  else
    let w := w.call .socketpair
    if env.socketpair_err ≠ 0 then .error .assertion
    else
      let w := w.call (.bt_uhid_new env.sv0)
      let ctx := { ctx with uhid := env.new_uhid }
      if ctx.uhid == 0 then .error .assertion
      else
        let w := { w.call (.g_io_add_watch env.sv1) with watch := true }
        let ctx := { ctx with source := env.watch_id }
        if ¬ (ctx.source > 0) then .error .assertion
        else .ok (some { ctx with fd := env.sv1 }, w)

/-- The C `test_client`. -/
def test_client (env : Env) (data : test_data) (w : World) : Except Fault World :=
  match create_context env data w with
  | .error e => .error e
  | .ok (none, w) => .ok w
  | .ok (some ctx, w) =>
    let w := match ctx.data.test_device with
      | some device =>
        w.call (.bt_uhid_create ctx.uhid device.name device.vendor device.product
          device.version device.country device.type device.map.iov_base
          device.map.iov_len)
      | none => w.call (.bt_uhid_create ctx.uhid "" 0 0 0 0 .BT_UHID_NONE [] 0)
    let w := if env.create_err < 0 then
        (w.call (.tester_debug "create failed")).call .tester_test_failed
      else w
    let w := if ctx.data.test_name == "/uhid/command/destroy" then
        let w := w.call (.bt_uhid_destroy ctx.uhid true)
        if env.destroy_err < 0 then w.call .tester_test_failed else w
      else w
    let w := if ctx.data.test_name == "/uhid/command/feature_answer" then
        let w := w.call (.bt_uhid_send ctx.uhid ev_feature_answer)
        if env.send_err < 0 then w.call .tester_test_failed else w
      else w
    let w := if ctx.data.test_name == "/uhid/command/input" then
        let w := w.call (.bt_uhid_input ctx.uhid 0 [] 0)
        if env.input_err < 0 then w.call .tester_test_failed else w
      else w
    .ok (context_quit (some ctx) w)

/-- The C `test_server`.  The result carries the context, which stays
allocated when the function returns. -/
def test_server (env : Env) (data : test_data) (w : World) :
    Except Fault (context × World) :=
  match create_context env data w with
  | .error e => .error e
  | .ok (none, _) => .error .segfault
  | .ok (some ctx, w) =>
    let w := { w.call (.bt_uhid_register ctx.uhid .UHID_OUTPUT) with
               handlers := w.handlers ++ [uhid_event_type.UHID_OUTPUT] }
    let w := { w.call (.bt_uhid_register ctx.uhid .UHID_FEATURE) with
               handlers := w.handlers ++ [uhid_event_type.UHID_FEATURE] }
    .ok (ctx, { w.call .g_idle_add with idle := w.idle + 1 })

/-! ## The event loop

After a test function returns, the GLib main loop dispatches the callbacks
that are still registered, one at a time. -/

/-- A session between two callbacks: the allocated context and the world. -/
structure Session where
  context : context
  world : World
  deriving DecidableEq, Repr

/-- What the main loop can dispatch to the harness. -/
inductive Event where
  /-- The channel watch fires with condition `cond`; `rd` is what `read`
  does if the handler calls it. -/
  | channel (cond : Nat) (rd : read_result)
  /-- An idle source fires; `len` is what `write` returns. -/
  | idle (len : Int)
  /-- The handle decodes `ev` and calls the callback registered for its
  kind. -/
  | uhid (ev : uhid_event)
  deriving DecidableEq, Repr

/-- Dispatch of one event.  `none` when the event cannot be dispatched (its
source is not registered, or the session is torn down) or when the callback
stops the process.  A callback that returns `FALSE` is removed by GLib. -/
def dispatch (env : Env) (e : Event) (s : Session) : Option Session :=
  if s.world.freed then none
  else
    match e with
    | .channel cond rd =>
      if s.world.watch then
        match test_handler env.use_debug cond rd env.idle_id s.context s.world with
        | .ok (ctx, w, keep) => some ⟨ctx, { w with watch := w.watch && keep }⟩
        | .error _ => none
      else none
    | .idle len =>
      if 0 < s.world.idle then
        match send_pdu env.use_debug len s.context s.world with
        | .ok (ctx, w, keep) =>
          some ⟨ctx, { w with idle := if keep then w.idle else w.idle - 1 }⟩
        | .error _ => none
      else none
    | .uhid ev =>
      if ev.type ∈ s.world.handlers then
        match ev.type with
        | .UHID_OUTPUT =>
          match handle_output ev (some s.context) s.world with
          | .ok w => some ⟨s.context, w⟩
          | .error _ => none
        | .UHID_FEATURE =>
          match handle_feature ev (some s.context) s.world with
          | .ok w => some ⟨s.context, w⟩
          | .error _ => none
        | _ => none
      else none

/-- Dispatch of a sequence of events, in order. -/
def run (env : Env) : List Event → Session → Option Session
  | [], s => some s
  | e :: es, s =>
    match dispatch env e s with
    | none => none
    | some s => run env es s

/-- The index of the terminating invalid frame: the number of frames before
the first invalid one. -/
def script_length (pdu_list : List test_pdu) : Nat :=
  (pdu_list.takeWhile (fun pdu => pdu.valid)).length

/-- The outcome reports in a trace. -/
def outcomes (trace : List Call) : List Call :=
  trace.filter (fun c =>
    c == .tester_test_passed || c == .tester_test_failed || c == .tester_test_abort)

/-- The bound that the registrations of the event loop give the cursor. -/
def cursor_bound (data : test_data) (s : Session) : Prop :=
  s.context.data = data
    ∧ s.context.pdu_offset ≤ data.pdu_list.length + (if s.world.watch = true then 0 else 1)

/-! ## Concrete inputs -/

/-- The numeric values of the event kinds in `linux/uhid.h`. -/
def uhid_event_type.code : uhid_event_type → Nat
  | .UHID_CREATE => 0
  | .UHID_DESTROY => 1
  | .UHID_OUTPUT => 6
  | .UHID_INPUT => 8
  | .UHID_FEATURE => 9
  | .UHID_FEATURE_ANSWER => 10

/-- The memory image of a static event on little-endian Linux: the 32-bit
kind, then the zeroed union, whose size is rounded up to its 8-byte
alignment (4376 bytes); 4380 bytes in all. -/
def uhid_event_image (ev : uhid_event) : List Nat :=
  [ev.type.code, 0, 0, 0] ++ List.replicate 4376 0

/-- The data of the scenario `main` registers under `name`. -/
def scenario (name : String) : test_data :=
  match registered uhid_event_image name with
  | some t => t.data
  | none => { test_name := name, test_device := none, pdu_list := [terminator] }

/-- An unprivileged run in which every external call succeeds. -/
def env_user : Env :=
  { uid := 1000, new_default := 0, socketpair_err := 0, sv0 := 3, sv1 := 4,
    new_uhid := 1, watch_id := 1, create_err := 0, destroy_err := 0,
    send_err := 0, input_err := 0, idle_id := 2, use_debug := false }

/-- An unprivileged run in which `bt_uhid_create` returns `-EIO`. -/
def env_create_fails : Env :=
  { env_user with create_err := -5 }

/-- A privileged run in which `bt_uhid_new_default` returns a handle. -/
def env_root : Env :=
  { env_user with uid := 0, new_default := 7 }

/-- A privileged run in which `bt_uhid_new_default` returns `NULL`. -/
def env_root_no_uhid : Env :=
  { env_user with uid := 0, new_default := 0 }

/-- The session `test_server` leaves for `/uhid/event/output` in the run
`env_user`. -/
def output_session : Session :=
  { context := { uhid := 1, source := 1, process := 0, fd := 4, pdu_offset := 0,
                 data := scenario "/uhid/event/output" }
    world := { trace := [.getuid, .socketpair, .bt_uhid_new 3, .g_io_add_watch 4,
                 .bt_uhid_register 1 .UHID_OUTPUT, .bt_uhid_register 1 .UHID_FEATURE,
                 .g_idle_add]
               watch := true, idle := 1, freed := false
               handlers := [.UHID_OUTPUT, .UHID_FEATURE] } }

/-- The session `output_session` after its frame has been injected. -/
def output_session_injected : Session :=
  { context := { output_session.context with pdu_offset := 1 }
    world := { output_session.world with
               trace := output_session.world.trace ++
                 [.write 4 (uhid_event_image ev_output) (uhid_event_image ev_output).length]
               idle := 0 } }

/-- The session `output_session_injected` after a hangup on the channel. -/
def output_session_hangup : Session :=
  { context := { output_session_injected.context with pdu_offset := 2, source := 0 }
    world := { output_session_injected.world with
               trace := output_session_injected.world.trace ++ [.g_print G_IO_HUP]
               watch := false } }

/-! ## Scenario construction: properties -/

/-- C7. Round trip of scenario construction: for every ordered list of event
payloads, the `pdu_list` built by `define_test_device` (and by `define_test`)
consists of one valid frame per payload, carrying that payload with
`size` equal to its number of bytes, in the original order, followed by
exactly one invalid frame of size 0 and nothing after it. -/
theorem define_test_round_trip (name : String) (function : test_func)
    (device : Option test_device) (payloads : List (List Nat)) :
    let pdus := (define_test_device name function device (payloads.map event)).data.pdu_list
    pdus.length = payloads.length + 1
    ∧ (∀ i (h : i < payloads.length),
        pdus[i]? = some { valid := true, data := payloads[i], size := payloads[i].length })
    ∧ pdus[payloads.length]? = some { valid := false, data := [], size := 0 }
    ∧ pdus = payloads.map (fun p => { valid := true, data := p, size := p.length })
              ++ [{ valid := false, data := [], size := 0 }]
    ∧ script_length pdus = payloads.length
    ∧ (define_test name function (payloads.map event)).data.pdu_list = pdus := by
  intro pdus
  have hp : pdus = payloads.map event ++ [terminator] := rfl
  refine ⟨?_, ?_, ?_, ?_, ?_, rfl⟩
  · simp [hp]
  · intro i h
    rw [hp, List.getElem?_append_left (by simpa using h)]
    simp [h, event]
  · rw [hp]
    have : payloads.length = (payloads.map event).length := by simp
    rw [this, List.getElem?_append_right (le_refl _)]
    simp [terminator]
  · rw [hp]; rfl
  · rw [hp, script_length]
    rw [List.takeWhile_append_of_pos]
    · simp [terminator]
    · intro pdu hpdu
      simp only [List.mem_map] at hpdu
      obtain ⟨p, _, rfl⟩ := hpdu
      rfl

/-- C10, as the source has it. The scenario registered as
`/uhid/device/mx_anywhere_3` runs `test_client`, carries the device with
vendor 0x046D, product 0xB025, type `BT_UHID_MOUSE` and a report map of
exactly 97 bytes, and its script is one frame holding the CREATE event
followed by the terminator. -/
theorem mx_anywhere_3_scenario (image : uhid_event → List Nat) :
    ∃ t, registered image "/uhid/device/mx_anywhere_3" = some t
      ∧ t.function = .test_client
      ∧ t.data.test_device = some mx_anywhere_3
      ∧ mx_anywhere_3.vendor = 0x046D
      ∧ mx_anywhere_3.product = 0xB025
      ∧ mx_anywhere_3.type = .BT_UHID_MOUSE
      ∧ mx_anywhere_3.map.iov_len = 97
      ∧ mx_anywhere_3.map.iov_base.length = 97
      ∧ t.data.pdu_list =
          [ { valid := true, data := image ev_create, size := (image ev_create).length },
            { valid := false, data := [], size := 0 } ] := by
  refine ⟨_, rfl, rfl, rfl, rfl, rfl, rfl, rfl, rfl, rfl⟩

/-- C10, counterexample. The report map of the registered device does not
have 93 bytes: it has 97. -/
theorem mx_anywhere_3_map_not_93 :
    (registered (fun _ => []) "/uhid/device/mx_anywhere_3").map
        (fun t => t.data.test_device.map (fun d => d.map.iov_len)) = some (some 97)
    ∧ ¬ ((registered (fun _ => []) "/uhid/device/mx_anywhere_3").map
        (fun t => t.data.test_device.map (fun d => d.map.iov_len)) = some (some 93)) := by
  constructor
  · rfl
  · decide

/-! ## Session creation -/

/-- The privileged path when `bt_uhid_new_default` returns `NULL`: abort,
then the teardown of a context without watch and idle source. -/
theorem create_context_privileged_null (env : Env) (data : test_data) (w : World)
    (hdev : data.test_device.isSome = true) (huid : env.uid = 0)
    (h0 : env.new_default = 0) :
    create_context env data w =
      .ok (none,
        { w with
          trace := w.trace ++ [.getuid, .bt_uhid_new_default, .tester_test_abort,
            .bt_uhid_unregister_all 0, .bt_uhid_unref 0, .g_free_test_name,
            .g_free_pdu_list, .g_free_context, .tester_test_passed]
          freed := true
          handlers := [] }) := by
  simp [create_context, hdev, huid, h0, context_quit, destroy_context, test_free,
    World.call]

theorem create_context_privileged (env : Env) (data : test_data) (w : World)
    (hdev : data.test_device.isSome = true) (huid : env.uid = 0)
    (h0 : env.new_default ≠ 0) :
    create_context env data w =
      .ok (some { uhid := env.new_default, source := 0, process := 0, fd := 0,
                  pdu_offset := 0, data := data },
        { w with trace := w.trace ++ [.getuid, .bt_uhid_new_default] }) := by
  simp [create_context, hdev, huid, h0, World.call]

theorem create_context_socketpair (env : Env) (data : test_data) (w : World)
    (hbranch : (data.test_device.isSome && env.uid == 0) = false)
    (h1 : env.socketpair_err = 0) (h2 : env.new_uhid ≠ 0) (h3 : env.watch_id ≠ 0) :
    create_context env data w =
      .ok (some { uhid := env.new_uhid, source := env.watch_id, process := 0,
                  fd := env.sv1, pdu_offset := 0, data := data },
        { w with
          trace := w.trace ++ [.getuid, .socketpair, .bt_uhid_new env.sv0,
                               .g_io_add_watch env.sv1]
          watch := true }) := by
  have h3p : 0 < env.watch_id := Nat.pos_of_ne_zero h3
  simp [create_context, hbranch, h1, h2, h3p, World.call]

theorem create_context_assertion (env : Env) (data : test_data) (w : World)
    (hbranch : (data.test_device.isSome && env.uid == 0) = false)
    (h : env.socketpair_err ≠ 0 ∨ env.new_uhid = 0 ∨ env.watch_id = 0) :
    create_context env data w = .error .assertion := by
  by_cases h1 : env.socketpair_err = 0
  · by_cases h2 : env.new_uhid = 0
    · simp [create_context, hbranch, h1, h2]
    · have h3 : env.watch_id = 0 := by
        rcases h with h | h | h
        · exact absurd h1 h
        · exact absurd h h2
        · exact h
      simp [create_context, hbranch, h1, h2, h3]
  · simp [create_context, hbranch, h1]

/-- C6. `create_context` branches on privilege.  With a `test_device` and
uid 0 it calls `bt_uhid_new_default` and nothing else: no `socketpair`, no
`bt_uhid_new`, no `g_io_add_watch`, no watch registered, and the context it
returns has `source = 0` and the handle of `bt_uhid_new_default` (it returns
`NULL` exactly when that handle is `NULL`).  With a `test_device` and another
uid, and without a `test_device` whatever the uid, it calls `socketpair`,
`bt_uhid_new(sv[0])` and `g_io_add_watch` on `sv[1]`, and returns a context
with that handle, that watch and `fd = sv[1]`; the only other result is the
abort of a failed `g_assert` on one of these three calls. -/
theorem create_context_privilege_branch (env : Env) (data : test_data) (w : World) :
    (data.test_device.isSome = true → env.uid = 0 →
      ∃ r calls, create_context env data w = .ok (r, calls)
        ∧ (∃ more, calls.trace = w.trace ++ [.getuid, .bt_uhid_new_default] ++ more
            ∧ Call.socketpair ∉ more
            ∧ (∀ fd, Call.bt_uhid_new fd ∉ more ∧ Call.g_io_add_watch fd ∉ more))
        ∧ calls.watch = w.watch
        ∧ (r = none ↔ env.new_default = 0)
        ∧ (∀ ctx, r = some ctx →
            ctx = { uhid := env.new_default, source := 0, process := 0, fd := 0,
                    pdu_offset := 0, data := data }))
    ∧ ((data.test_device.isSome = true ∧ env.uid ≠ 0) ∨ data.test_device = none →
      (create_context env data w = .error .assertion
        ∧ (env.socketpair_err ≠ 0 ∨ env.new_uhid = 0 ∨ env.watch_id = 0))
      ∨ (create_context env data w =
          .ok (some { uhid := env.new_uhid, source := env.watch_id, process := 0,
                      fd := env.sv1, pdu_offset := 0, data := data },
               { w with
                 trace := w.trace ++ [.getuid, .socketpair, .bt_uhid_new env.sv0,
                                      .g_io_add_watch env.sv1]
                 watch := true })
        ∧ env.socketpair_err = 0 ∧ env.new_uhid ≠ 0 ∧ env.watch_id ≠ 0)) := by
  constructor
  · intro hdev huid
    by_cases h0 : env.new_default = 0
    · refine ⟨none, _, create_context_privileged_null env data w hdev huid h0,
        ⟨[.tester_test_abort, .bt_uhid_unregister_all 0, .bt_uhid_unref 0,
          .g_free_test_name, .g_free_pdu_list, .g_free_context, .tester_test_passed],
          ?_, ?_, ?_⟩, rfl, ?_, ?_⟩
      · simp
      · simp
      · simp
      · simp [h0]
      · simp
    · refine ⟨some _, _, create_context_privileged env data w hdev huid h0,
        ⟨[], ?_, ?_, ?_⟩, rfl, ?_, ?_⟩
      · simp
      · simp
      · simp
      · simp [h0]
      · intro ctx hctx
        simp at hctx
        exact hctx.symm
  · intro hsock
    have hbranch : (data.test_device.isSome && env.uid == 0) = false := by
      rcases hsock with ⟨_, h⟩ | h
      · simp [h]
      · simp [h]
    by_cases h : env.socketpair_err ≠ 0 ∨ env.new_uhid = 0 ∨ env.watch_id = 0
    · exact Or.inl ⟨create_context_assertion env data w hbranch h, h⟩
    · simp only [not_or, not_not] at h
      exact Or.inr ⟨create_context_socketpair env data w hbranch h.1 h.2.1 h.2.2,
        h.1, h.2.1, h.2.2⟩

/-- C6, at concrete inputs: the device scenario run as root and as a user. -/
theorem create_context_privilege_branch_witness :
    (∃ r calls, create_context env_root (scenario "/uhid/device/mx_anywhere_3")
          World.start = .ok (r, calls)
        ∧ (∃ more, calls.trace = World.start.trace ++ [.getuid, .bt_uhid_new_default] ++ more
            ∧ Call.socketpair ∉ more
            ∧ (∀ fd, Call.bt_uhid_new fd ∉ more ∧ Call.g_io_add_watch fd ∉ more))
        ∧ calls.watch = World.start.watch
        ∧ (r = none ↔ env_root.new_default = 0)
        ∧ (∀ ctx, r = some ctx →
            ctx = { uhid := env_root.new_default, source := 0, process := 0, fd := 0,
                    pdu_offset := 0, data := scenario "/uhid/device/mx_anywhere_3" }))
    ∧ ((create_context env_user (scenario "/uhid/device/mx_anywhere_3") World.start
          = .error .assertion
        ∧ (env_user.socketpair_err ≠ 0 ∨ env_user.new_uhid = 0 ∨ env_user.watch_id = 0))
      ∨ (create_context env_user (scenario "/uhid/device/mx_anywhere_3") World.start =
          .ok (some { uhid := env_user.new_uhid, source := env_user.watch_id, process := 0,
                      fd := env_user.sv1, pdu_offset := 0,
                      data := scenario "/uhid/device/mx_anywhere_3" },
               { World.start with
                 trace := World.start.trace ++ [.getuid, .socketpair,
                   .bt_uhid_new env_user.sv0, .g_io_add_watch env_user.sv1]
                 watch := true })
        ∧ env_user.socketpair_err = 0 ∧ env_user.new_uhid ≠ 0 ∧ env_user.watch_id ≠ 0)) :=
  ⟨(create_context_privilege_branch env_root (scenario "/uhid/device/mx_anywhere_3")
      World.start).1 rfl rfl,
   (create_context_privilege_branch env_user (scenario "/uhid/device/mx_anywhere_3")
      World.start).2 (Or.inl ⟨rfl, by decide⟩)⟩

/-- What a context returned by `create_context` and the world look like. -/
theorem create_context_some (env : Env) (data : test_data) (w w1 : World) (ctx : context)
    (h : create_context env data w = .ok (some ctx, w1)) :
    ctx.pdu_offset = 0 ∧ ctx.process = 0 ∧ ctx.data = data
      ∧ w1.freed = w.freed ∧ w1.handlers = w.handlers ∧ w1.idle = w.idle
      ∧ outcomes w1.trace = outcomes w.trace := by
  by_cases hb : (data.test_device.isSome && env.uid == 0) = true
  · have hb2 := hb
    simp only [Bool.and_eq_true, beq_iff_eq] at hb2
    by_cases h0 : env.new_default = 0
    · rw [create_context_privileged_null env data w hb2.1 hb2.2 h0] at h
      simp at h
    · rw [create_context_privileged env data w hb2.1 hb2.2 h0] at h
      simp only [Except.ok.injEq, Prod.mk.injEq, Option.some.injEq] at h
      obtain ⟨rfl, rfl⟩ := h
      simp [outcomes]
  · simp only [Bool.not_eq_true] at hb
    by_cases ha : env.socketpair_err ≠ 0 ∨ env.new_uhid = 0 ∨ env.watch_id = 0
    · rw [create_context_assertion env data w hb ha] at h
      simp at h
    · simp only [not_or, not_not] at ha
      rw [create_context_socketpair env data w hb ha.1 ha.2.1 ha.2.2] at h
      simp only [Except.ok.injEq, Prod.mk.injEq, Option.some.injEq] at h
      obtain ⟨rfl, rfl⟩ := h
      simp [outcomes]

/-- Dispatch of a decoded event to its callback: the callback asserts the
kind and tears the session down. -/
theorem dispatch_uhid (env : Env) (ev : uhid_event) (s : Session)
    (hfreed : s.world.freed = false) (hmem : ev.type ∈ s.world.handlers)
    (hev : ev.type = .UHID_OUTPUT ∨ ev.type = .UHID_FEATURE) :
    dispatch env (.uhid ev) s = some ⟨s.context, context_quit (some s.context) s.world⟩ := by
  obtain ⟨t⟩ := ev
  rcases hev with hev | hev
  · simp only at hev
    subst hev
    simp only at hmem
    simp [dispatch, hfreed, hmem, handle_output]
  · simp only at hev
    subst hev
    simp only at hmem
    simp [dispatch, hfreed, hmem, handle_feature]

/-! ## Outcome reports -/

theorem outcomes_append (a b : List Call) : outcomes (a ++ b) = outcomes a ++ outcomes b := by
  simp [outcomes]

theorem outcomes_call (w : World) (c : Call) :
    outcomes (w.call c).trace = outcomes w.trace ++ outcomes [c] := by
  simp [World.call, outcomes_append]

/-- Teardown reports `tester_test_passed`, once, and nothing else. -/
theorem context_quit_outcomes (ctx : context) (w : World) :
    outcomes (context_quit (some ctx) w).trace = outcomes w.trace ++ [.tester_test_passed] := by
  simp only [context_quit, destroy_context, test_free, World.call]
  split_ifs <;> simp [outcomes]

/-- The report of one command of `test_client`: the call, then
`tester_test_failed` when its result is negative. -/
theorem outcomes_command (w : World) (c1 c2 : Prop) [Decidable c1] [Decidable c2]
    (call : Call) (h : outcomes [call] = []) :
    outcomes (if c1 then
        (if c2 then (w.call call).call .tester_test_failed else w.call call)
      else w).trace
      = outcomes w.trace ++ (if c1 ∧ c2 then [.tester_test_failed] else []) := by
  by_cases h1 : c1 <;> by_cases h2 : c2 <;> simp [h1, h2, outcomes_call, h]
  simp [outcomes]

/-- The report of `bt_uhid_create` in `test_client`. -/
theorem outcomes_create (w : World) (device : Option test_device) (uhid : Nat) (c : Prop)
    [Decidable c] :
    outcomes (if c then
        ((match device with
          | some device =>
            w.call (.bt_uhid_create uhid device.name device.vendor device.product
              device.version device.country device.type device.map.iov_base
              device.map.iov_len)
          | none => w.call (.bt_uhid_create uhid "" 0 0 0 0 .BT_UHID_NONE [] 0)).call
            (.tester_debug "create failed")).call .tester_test_failed
      else
        (match device with
          | some device =>
            w.call (.bt_uhid_create uhid device.name device.vendor device.product
              device.version device.country device.type device.map.iov_base
              device.map.iov_len)
          | none => w.call (.bt_uhid_create uhid "" 0 0 0 0 .BT_UHID_NONE [] 0))).trace
      = outcomes w.trace ++ (if c then [.tester_test_failed] else []) := by
  cases device <;> by_cases h : c <;> simp [h, outcomes_call] <;> simp [outcomes]

/-- C1, counterexample. In the unprivileged run of `/uhid/command/create` in
which `bt_uhid_create` returns a negative value, `test_client` reports two
outcomes: `tester_test_failed` and then `tester_test_passed`.  In the
privileged run of `/uhid/device/mx_anywhere_3` in which
`bt_uhid_new_default` returns `NULL`, it reports `tester_test_abort` and then
`tester_test_passed`. -/
theorem test_client_reports_twice :
    (∃ w, test_client env_create_fails (scenario "/uhid/command/create") World.start = .ok w
      ∧ outcomes w.trace = [.tester_test_failed, .tester_test_passed]
      ∧ (outcomes w.trace).length ≠ 1)
    ∧ (∃ w, test_client env_root_no_uhid (scenario "/uhid/device/mx_anywhere_3")
          World.start = .ok w
      ∧ outcomes w.trace = [.tester_test_abort, .tester_test_passed]
      ∧ (outcomes w.trace).length ≠ 1) :=
  ⟨⟨_, rfl, by decide, by decide⟩, ⟨_, rfl, by decide, by decide⟩⟩

/-- C1, as the source has it. A run of `test_client` either is stopped by a
failed `g_assert` in `create_context` (no report at all), or returns having
called `tester_test_passed` exactly once, as its last report; before it, it
calls `tester_test_abort` once when the privileged handle is `NULL`, and
otherwise `tester_test_failed` once for every command among `bt_uhid_create`,
`bt_uhid_destroy`, `bt_uhid_send`, `bt_uhid_input` that it invokes and that
returns a negative value.  `test_server` reports nothing itself when
`create_context` returns a context; `tester_test_passed` is then reported,
once, when the callback registered for `UHID_OUTPUT` or `UHID_FEATURE` is
dispatched. -/
theorem test_client_outcomes (env : Env) (data : test_data) :
    ((test_client env data World.start = .error .assertion
        ∧ (data.test_device.isSome && env.uid == 0) = false
        ∧ (env.socketpair_err ≠ 0 ∨ env.new_uhid = 0 ∨ env.watch_id = 0))
      ∨ ∃ w, test_client env data World.start = .ok w
        ∧ outcomes w.trace =
          (if (data.test_device.isSome && env.uid == 0) = true then
            (if env.new_default = 0 then [.tester_test_abort]
             else if env.create_err < 0 then [.tester_test_failed] else [])
           else
            (if env.create_err < 0 then [.tester_test_failed] else []))
          ++ (if ¬ ((data.test_device.isSome && env.uid == 0) = true ∧ env.new_default = 0)
                ∧ data.test_name = "/uhid/command/destroy" ∧ env.destroy_err < 0
              then [.tester_test_failed] else [])
          ++ (if ¬ ((data.test_device.isSome && env.uid == 0) = true ∧ env.new_default = 0)
                ∧ data.test_name = "/uhid/command/feature_answer" ∧ env.send_err < 0
              then [.tester_test_failed] else [])
          ++ (if ¬ ((data.test_device.isSome && env.uid == 0) = true ∧ env.new_default = 0)
                ∧ data.test_name = "/uhid/command/input" ∧ env.input_err < 0
              then [.tester_test_failed] else [])
          ++ [.tester_test_passed])
    ∧ (∀ ctx w1, create_context env data World.start = .ok (some ctx, w1) →
        ∃ w, test_server env data World.start = .ok (ctx, w)
          ∧ outcomes w.trace = []
          ∧ ∀ ev : uhid_event, ev.type = .UHID_OUTPUT ∨ ev.type = .UHID_FEATURE →
              ∃ s, dispatch env (.uhid ev) ⟨ctx, w⟩ = some s
                ∧ outcomes s.world.trace = [.tester_test_passed]) := by
  constructor
  · by_cases hb : (data.test_device.isSome && env.uid == 0) = true
    · have hb2 := hb
      simp only [Bool.and_eq_true, beq_iff_eq] at hb2
      right
      by_cases h0 : env.new_default = 0
      · unfold test_client
        rw [create_context_privileged_null env data _ hb2.1 hb2.2 h0]
        refine ⟨_, rfl, ?_⟩
        simp [hb2.1, hb2.2, h0, outcomes, World.start]
      · unfold test_client
        rw [create_context_privileged env data _ hb2.1 hb2.2 h0]
        refine ⟨_, rfl, ?_⟩
        simp only [context_quit_outcomes]
        rw [outcomes_command, outcomes_command, outcomes_command, outcomes_create]
        · simp [hb, h0, outcomes, World.start]
        all_goals rfl
    · simp only [Bool.not_eq_true] at hb
      by_cases ha : env.socketpair_err ≠ 0 ∨ env.new_uhid = 0 ∨ env.watch_id = 0
      · left
        refine ⟨?_, hb, ha⟩
        simp only [test_client, create_context_assertion env data _ hb ha]
      · right
        simp only [not_or, not_not] at ha
        unfold test_client
        rw [create_context_socketpair env data _ hb ha.1 ha.2.1 ha.2.2]
        refine ⟨_, rfl, ?_⟩
        simp only [context_quit_outcomes]
        rw [outcomes_command, outcomes_command, outcomes_command, outcomes_create]
        · simp [hb, outcomes, World.start]
        all_goals rfl
  · intro ctx w1 h
    obtain ⟨-, hproc, -, hfreed, hhand, -, hout⟩ := create_context_some env data _ w1 ctx h
    unfold test_server
    rw [h]
    refine ⟨_, rfl, ?_, ?_⟩
    · simp [World.call, outcomes_append, hout]
      simp [outcomes, World.start]
    · intro ev hev
      refine ⟨_, dispatch_uhid env ev _ ?_ ?_ hev, ?_⟩
      · simp [World.call, hfreed, World.start]
      · rcases hev with hev | hev <;> simp [World.call, hev]
      · simp only [context_quit_outcomes, outcomes_call, hout]
        simp [outcomes, World.start]

/-- C2, at the failing input. In the unprivileged run of
`/uhid/command/create` in which every external call succeeds, `test_client`
calls `context_quit` itself right after `bt_uhid_create`: `tester_test_passed`
is reported while the cursor of the context is still 0, before the
terminator at index 1, and no `read` has been made; the watch is removed and
the context freed, so no callback can be dispatched afterwards. -/
theorem test_client_passes_before_any_frame :
    ∃ ctx w1 w,
      create_context env_user (scenario "/uhid/command/create") World.start
          = .ok (some ctx, w1)
      ∧ test_client env_user (scenario "/uhid/command/create") World.start = .ok w
      ∧ ctx.pdu_offset = 0
      ∧ script_length ctx.data.pdu_list = 1
      ∧ w.trace =
          [.getuid, .socketpair, .bt_uhid_new 3, .g_io_add_watch 4,
           .bt_uhid_create 1 "" 0 0 0 0 .BT_UHID_NONE [] 0,
           .g_source_remove 1, .bt_uhid_unregister_all 1, .bt_uhid_unref 1,
           .g_free_test_name, .g_free_pdu_list, .g_free_context,
           .tester_test_passed]
      ∧ w.watch = false ∧ w.freed = true
      ∧ ∀ e, dispatch env_user e ⟨ctx, w⟩ = none := by
  refine ⟨_, _, _, rfl, rfl, rfl, by decide, by decide, rfl, rfl, ?_⟩
  intro e
  rfl

/-! ## Teardown -/

/-- The calls of one teardown. -/
theorem context_quit_trace (ctx : context) (w : World) :
    (context_quit (some ctx) w).trace =
      w.trace
        ++ (if ctx.process > 0 then [.g_source_remove ctx.process] else [])
        ++ (if ctx.source > 0 then [.g_source_remove ctx.source] else [])
        ++ [.bt_uhid_unregister_all ctx.uhid, .bt_uhid_unref ctx.uhid,
            .g_free_test_name, .g_free_pdu_list, .g_free_context,
            .tester_test_passed] := by
  simp only [context_quit, destroy_context, test_free, World.call]
  split_ifs <;> simp

theorem context_quit_freed (ctx : context) (w : World) :
    (context_quit (some ctx) w).freed = true := by
  simp only [context_quit, destroy_context, test_free, World.call]

theorem context_quit_idle (ctx : context) (w : World) :
    (context_quit (some ctx) w).idle = (if ctx.process > 0 then w.idle - 1 else w.idle) := by
  simp only [context_quit, destroy_context, test_free, World.call]
  split_ifs <;> rfl

/-- C5, counterexample. On the context of the unprivileged
`/uhid/command/create` session, the first `context_quit` tears the session
down and frees the context; a second `context_quit` in a row on the same
context is not without effect: there is no guard but the `NULL` check, so it
reads the freed context, an invalid access, instead of returning with the
world as the first call left it. -/
theorem context_quit_twice_not_idempotent :
    ∃ ctx w0,
      create_context env_user (scenario "/uhid/command/create") World.start
          = .ok (some ctx, w0)
      ∧ context_quit_call (some ctx) w0 = .ok (context_quit (some ctx) w0)
      ∧ (context_quit (some ctx) w0).freed = true
      ∧ (context_quit (some ctx) w0).trace.count .g_free_context = 1
      ∧ (context_quit (some ctx) w0).trace.count .tester_test_passed = 1
      ∧ context_quit_call (some ctx) (context_quit (some ctx) w0) = .error .segfault
      ∧ context_quit_call (some ctx) (context_quit (some ctx) w0)
          ≠ .ok (context_quit (some ctx) w0) :=
  ⟨_, _, rfl, rfl, rfl, by decide, by decide, rfl,
    by simp [context_quit_call, context_quit_freed]⟩

/-- C5, as the source has it. `context_quit` does nothing for a `NULL`
context.  On a live context one call removes the idle source recorded in
`process` and the watch recorded in `source` (each when non-zero),
unregisters and releases the handle, releases the script storage and the
context, and reports `tester_test_passed`, each exactly once and in this
order, and leaves the context freed.  It is not idempotent: a second call in a
row on the same context is an access to the freed context. -/
theorem context_quit_effect (ctx : context) (w : World) (hlive : w.freed = false) :
    context_quit_call none w = .ok w
    ∧ context_quit_call (some ctx) w = .ok (context_quit (some ctx) w)
    ∧ (context_quit (some ctx) w).trace =
        w.trace
          ++ (if ctx.process > 0 then [.g_source_remove ctx.process] else [])
          ++ (if ctx.source > 0 then [.g_source_remove ctx.source] else [])
          ++ [.bt_uhid_unregister_all ctx.uhid, .bt_uhid_unref ctx.uhid,
              .g_free_test_name, .g_free_pdu_list, .g_free_context,
              .tester_test_passed]
    ∧ (context_quit (some ctx) w).idle = (if ctx.process > 0 then w.idle - 1 else w.idle)
    ∧ (context_quit (some ctx) w).watch = (w.watch && decide (ctx.source = 0))
    ∧ (context_quit (some ctx) w).handlers = []
    ∧ (context_quit (some ctx) w).freed = true
    ∧ context_quit_call (some ctx) (context_quit (some ctx) w) = .error .segfault := by
  refine ⟨rfl, ?_, context_quit_trace ctx w, context_quit_idle ctx w, ?_, ?_,
    context_quit_freed ctx w, ?_⟩
  · simp [context_quit_call, hlive]
  · simp only [context_quit, destroy_context, test_free, World.call]
    split_ifs <;> simp_all <;> omega
  · simp only [context_quit, destroy_context, test_free, World.call]
  · simp [context_quit_call, context_quit_freed]

/-- C5, at a concrete input: the session `test_server` leaves for
`/uhid/event/output`, torn down once and then once more. -/
theorem context_quit_effect_witness :
    context_quit_call none output_session.world = .ok output_session.world
    ∧ context_quit_call (some output_session.context) output_session.world
        = .ok (context_quit (some output_session.context) output_session.world)
    ∧ (context_quit (some output_session.context) output_session.world).trace =
        output_session.world.trace
          ++ (if output_session.context.process > 0 then
                [.g_source_remove output_session.context.process] else [])
          ++ (if output_session.context.source > 0 then
                [.g_source_remove output_session.context.source] else [])
          ++ [.bt_uhid_unregister_all output_session.context.uhid,
              .bt_uhid_unref output_session.context.uhid,
              .g_free_test_name, .g_free_pdu_list, .g_free_context,
              .tester_test_passed]
    ∧ (context_quit (some output_session.context) output_session.world).idle
        = (if output_session.context.process > 0 then output_session.world.idle - 1
           else output_session.world.idle)
    ∧ (context_quit (some output_session.context) output_session.world).watch
        = (output_session.world.watch && decide (output_session.context.source = 0))
    ∧ (context_quit (some output_session.context) output_session.world).handlers = []
    ∧ (context_quit (some output_session.context) output_session.world).freed = true
    ∧ context_quit_call (some output_session.context)
        (context_quit (some output_session.context) output_session.world)
        = .error .segfault :=
  context_quit_effect output_session.context output_session.world rfl

/-! ## The channel watch on an error condition -/

/-- C8, counterexample. In the session `test_server` creates for
`/uhid/event/output`, with the cursor on the first frame, a hangup on the
channel makes `test_handler` return `FALSE` without any failed assertion: no
outcome is reported, the context is not freed, and GLib drops the watch. -/
theorem test_handler_hangup_reports_nothing :
    ∃ ctx w s,
      test_server env_user (scenario "/uhid/event/output") World.start = .ok (ctx, w)
      ∧ ctx.pdu_offset < script_length ctx.data.pdu_list
      ∧ test_handler false G_IO_HUP none 2 ctx w
          = .ok ({ ctx with pdu_offset := 1, source := 0 }, w.call (.g_print G_IO_HUP), false)
      ∧ dispatch env_user (.channel G_IO_HUP none) ⟨ctx, w⟩ = some s
      ∧ outcomes s.world.trace = []
      ∧ Call.tester_test_failed ∉ s.world.trace
      ∧ s.world.freed = false
      ∧ s.world.watch = false := by
  refine ⟨_, _, _, rfl, by decide, rfl, rfl, by decide, by decide, rfl, rfl⟩

/-- Dispatch of the channel watch when `test_handler` returns. -/
theorem dispatch_channel_ok (env : Env) (cond : Nat) (rd : read_result) (s : Session)
    (ctx : context) (w : World) (keep : Bool)
    (hfreed : s.world.freed = false) (hwatch : s.world.watch = true)
    (h : test_handler env.use_debug cond rd env.idle_id s.context s.world
          = .ok (ctx, w, keep)) :
    dispatch env (.channel cond rd) s = some ⟨ctx, { w with watch := w.watch && keep }⟩ := by
  simp [dispatch, hfreed, hwatch, h]

/-- C8, as the source has it. When the watch fires with `G_IO_ERR`, `G_IO_HUP`
or `G_IO_NVAL`, at any script position, `test_handler` advances the cursor,
clears `source`, prints the condition and returns `FALSE`, so that GLib
removes the watch and `test_handler` is not dispatched again.  It makes no
assertion, reports no outcome and does not tear the session down: the only
call is the print, the context stays allocated, and the idle sources and the
uhid callbacks stay registered. -/
theorem test_handler_error_condition (use_debug : Bool) (cond : Nat) (rd : read_result)
    (idle_id : Nat) (ctx : context) (w : World)
    (hcond : cond &&& (G_IO_NVAL ||| G_IO_ERR ||| G_IO_HUP) ≠ 0) :
    test_handler use_debug cond rd idle_id ctx w
        = .ok ({ ctx with pdu_offset := (ctx.pdu_offset + 1) % 2 ^ 32, source := 0 },
               w.call (.g_print cond), false)
    ∧ (w.call (.g_print cond)).trace = w.trace ++ [.g_print cond]
    ∧ outcomes (w.call (.g_print cond)).trace = outcomes w.trace
    ∧ (w.call (.g_print cond)).freed = w.freed
    ∧ (w.call (.g_print cond)).idle = w.idle
    ∧ (w.call (.g_print cond)).handlers = w.handlers
    ∧ ∀ env : Env, env.use_debug = use_debug → env.idle_id = idle_id →
        w.freed = false → w.watch = true →
        dispatch env (.channel cond rd) ⟨ctx, w⟩
            = some ⟨{ ctx with pdu_offset := (ctx.pdu_offset + 1) % 2 ^ 32, source := 0 },
                    { w.call (.g_print cond) with watch := false }⟩
          ∧ ∀ cond1 rd1, dispatch env (.channel cond1 rd1)
              ⟨{ ctx with pdu_offset := (ctx.pdu_offset + 1) % 2 ^ 32, source := 0 },
               { w.call (.g_print cond) with watch := false }⟩ = none := by
  have hth : test_handler use_debug cond rd idle_id ctx w
      = .ok ({ ctx with pdu_offset := (ctx.pdu_offset + 1) % 2 ^ 32, source := 0 },
             w.call (.g_print cond), false) := by
    simp only [test_handler, hcond, ne_eq, not_false_eq_true, if_true]
  refine ⟨hth, rfl, ?_, rfl, rfl, rfl, ?_⟩
  · rw [outcomes_call]
    simp [outcomes]
  · intro env hd hi hfreed hwatch
    subst hd hi
    constructor
    · rw [dispatch_channel_ok env cond rd ⟨ctx, w⟩ _ _ _ hfreed hwatch hth]
      simp
    · intro cond1 rd1
      simp [dispatch]

/-- C8, at a concrete input: `G_IO_ERR` in the session `test_server` leaves
for `/uhid/event/output`. -/
theorem test_handler_error_condition_witness :
    test_handler false G_IO_ERR none 2 output_session.context output_session.world
        = .ok ({ output_session.context with
                 pdu_offset := (output_session.context.pdu_offset + 1) % 2 ^ 32,
                 source := 0 },
               output_session.world.call (.g_print G_IO_ERR), false)
    ∧ outcomes (output_session.world.call (.g_print G_IO_ERR)).trace
        = outcomes output_session.world.trace
    ∧ (output_session.world.call (.g_print G_IO_ERR)).freed = output_session.world.freed
    ∧ (dispatch env_user (.channel G_IO_ERR none)
          ⟨output_session.context, output_session.world⟩
        = some ⟨{ output_session.context with
                  pdu_offset := (output_session.context.pdu_offset + 1) % 2 ^ 32,
                  source := 0 },
                { output_session.world.call (.g_print G_IO_ERR) with watch := false }⟩
      ∧ ∀ cond1 rd1, dispatch env_user (.channel cond1 rd1)
          ⟨{ output_session.context with
             pdu_offset := (output_session.context.pdu_offset + 1) % 2 ^ 32,
             source := 0 },
           { output_session.world.call (.g_print G_IO_ERR) with watch := false }⟩ = none) :=
  have h := test_handler_error_condition false G_IO_ERR none 2
    output_session.context output_session.world (by decide)
  ⟨h.1, h.2.2.1, h.2.2.2.1, h.2.2.2.2.2.2 env_user rfl rfl rfl rfl⟩

/-! ## The deferred injection -/

/-- What `send_pdu` does on an existing frame that `write` takes whole. -/
theorem send_pdu_ok (use_debug : Bool) (len : Int) (ctx : context) (w : World)
    (pdu : test_pdu) (hpdu : ctx.data.pdu_list[ctx.pdu_offset]? = some pdu)
    (hlen : len = (pdu.size : Int)) :
    send_pdu use_debug len ctx w
      = .ok ({ ctx with pdu_offset := (ctx.pdu_offset + 1) % 2 ^ 32, process := 0 },
          (if use_debug then
            (w.call (.write ctx.fd pdu.data pdu.size)).call
              (.util_hexdump '<' (pdu.data.take len.toNat))
           else w.call (.write ctx.fd pdu.data pdu.size)), false) := by
  simp [send_pdu, hpdu, hlen]

/-- Dispatch of an idle source whose `send_pdu` returns. -/
theorem dispatch_idle_ok (env : Env) (len : Int) (s : Session) (ctx : context)
    (w : World) (keep : Bool) (hfreed : s.world.freed = false) (hidle : 0 < s.world.idle)
    (h : send_pdu env.use_debug len s.context s.world = .ok (ctx, w, keep)) :
    dispatch env (.idle len) s
      = some ⟨ctx, { w with idle := if keep then w.idle else w.idle - 1 }⟩ := by
  simp [dispatch, hfreed, hidle, h]

/-- The injection of the frame of `/uhid/event/output`. -/
theorem dispatch_output_injection :
    dispatch env_user (.idle (uhid_event_image ev_output).length) output_session
      = some output_session_injected := by
  have h := send_pdu_ok false (uhid_event_image ev_output).length
    output_session.context output_session.world
    (event (uhid_event_image ev_output)) rfl rfl
  rw [dispatch_idle_ok env_user _ output_session _ _ _ rfl (by decide) h]
  rfl

theorem context_process_result (idle_id : Nat) (ctx ctx1 : context) (w w1 : World)
    (h : context_process idle_id ctx w = .ok (ctx1, w1)) :
    ctx1.data = ctx.data ∧ ctx1.pdu_offset = ctx.pdu_offset := by
  unfold context_process at h
  split at h
  · simp at h
  · split_ifs at h <;>
      (simp only [Except.ok.injEq, Prod.mk.injEq] at h; obtain ⟨rfl, -⟩ := h; exact ⟨rfl, rfl⟩)

theorem send_pdu_result (use_debug : Bool) (len : Int) (ctx ctx1 : context) (w w1 : World)
    (keep : Bool) (h : send_pdu use_debug len ctx w = .ok (ctx1, w1, keep)) :
    ctx.pdu_offset < ctx.data.pdu_list.length
      ∧ ctx1.data = ctx.data
      ∧ ctx1.pdu_offset = (ctx.pdu_offset + 1) % 2 ^ 32
      ∧ w1.watch = w.watch := by
  unfold send_pdu at h
  split at h
  · simp at h
  · rename_i pdu hpdu
    have hlt : ctx.pdu_offset < ctx.data.pdu_list.length := by
      by_contra hge
      rw [List.getElem?_eq_none (by omega)] at hpdu
      simp at hpdu
    split_ifs at h <;>
      (simp only [Except.ok.injEq, Prod.mk.injEq] at h
       obtain ⟨rfl, rfl, -⟩ := h
       exact ⟨hlt, rfl, rfl, rfl⟩)

theorem test_handler_result (use_debug : Bool) (cond : Nat) (rd : read_result)
    (idle_id : Nat) (ctx ctx1 : context) (w w1 : World) (keep : Bool)
    (h : test_handler use_debug cond rd idle_id ctx w = .ok (ctx1, w1, keep)) :
    ctx1.data = ctx.data
      ∧ ctx1.pdu_offset = (ctx.pdu_offset + 1) % 2 ^ 32
      ∧ (keep = false ∨ ctx.pdu_offset < ctx.data.pdu_list.length) := by
  unfold test_handler at h
  simp only at h
  split_ifs at h with hc hl
  · simp only [Except.ok.injEq, Prod.mk.injEq] at h
    obtain ⟨rfl, -, rfl⟩ := h
    exact ⟨rfl, rfl, Or.inl rfl⟩
  all_goals
    split at h
    · simp at h
    · rename_i pdu hpdu
      have hlt : ctx.pdu_offset < ctx.data.pdu_list.length := by
        by_contra hge
        rw [List.getElem?_eq_none (by omega)] at hpdu
        simp at hpdu
      split_ifs at h
      split at h
      · simp at h
      · rename_i ctx2 w2 hcp
        simp only [Except.ok.injEq, Prod.mk.injEq] at h
        obtain ⟨rfl, -, -⟩ := h
        obtain ⟨hd, ho⟩ := context_process_result _ _ _ _ _ hcp
        exact ⟨hd, ho, Or.inr hlt⟩

theorem context_quit_watch (ctx : context) (w : World) (h : w.watch = false) :
    (context_quit (some ctx) w).watch = false := by
  simp only [context_quit, destroy_context, test_free, World.call]
  split_ifs <;> simp_all

/-- What one dispatched callback does to the cursor. -/
theorem dispatch_cursor (env : Env) (e : Event) (s s1 : Session)
    (h : dispatch env e s = some s1) :
    s1.context.data = s.context.data
      ∧ (s.world.watch = false → s1.world.watch = false)
      ∧ (s1.context.pdu_offset = s.context.pdu_offset
        ∨ (s1.context.pdu_offset = (s.context.pdu_offset + 1) % 2 ^ 32
          ∧ ((s.world.watch = true ∧ s1.world.watch = false)
            ∨ s.context.pdu_offset < s.context.data.pdu_list.length))) := by
  cases e with
  | channel cond rd =>
    simp only [dispatch] at h
    split_ifs at h with hfreed hwatch
    split at h
    · rename_i ctx w keep hth
      simp only [Option.some.injEq] at h
      subst h
      obtain ⟨hd, ho, hk⟩ := test_handler_result _ _ _ _ _ _ _ _ _ hth
      refine ⟨hd, ?_, Or.inr ⟨ho, ?_⟩⟩
      · intro hf
        simp [hf] at hwatch
      · rcases hk with hk | hk
        · left
          exact ⟨hwatch, by simp [hk]⟩
        · right
          exact hk
    · simp at h
  | idle len =>
    simp only [dispatch] at h
    split_ifs at h with hfreed hidle
    split at h
    · rename_i ctx w keep hsp
      simp only [Option.some.injEq] at h
      subst h
      obtain ⟨hlt, hd, ho, hw⟩ := send_pdu_result _ _ _ _ _ _ _ hsp
      exact ⟨hd, fun hf => by simp [hw, hf], Or.inr ⟨ho, Or.inr hlt⟩⟩
    · simp at h
  | uhid ev =>
    by_cases hfreed : s.world.freed = true
    · simp [dispatch, hfreed] at h
    · by_cases hmem : ev.type ∈ s.world.handlers
      · by_cases hev : ev.type = .UHID_OUTPUT ∨ ev.type = .UHID_FEATURE
        · rw [dispatch_uhid env ev s (by simpa using hfreed) hmem hev] at h
          simp only [Option.some.injEq] at h
          subst h
          exact ⟨rfl, fun hf => context_quit_watch _ _ hf, Or.inl rfl⟩
        · obtain ⟨t⟩ := ev
          cases t <;> simp_all [dispatch]
      · simp [dispatch, hfreed, hmem] at h

theorem dispatch_cursor_bound (env : Env) (data : test_data) (e : Event) (s s1 : Session)
    (hlen : data.pdu_list.length + 1 < 2 ^ 32) (hinv : cursor_bound data s)
    (h : dispatch env e s = some s1) :
    cursor_bound data s1
      ∧ s.context.pdu_offset ≤ s1.context.pdu_offset
      ∧ s1.context.pdu_offset ≤ s.context.pdu_offset + 1 := by
  obtain ⟨hd, hw, ho⟩ := dispatch_cursor env e s s1 h
  obtain ⟨hdata, hb⟩ := hinv
  have key : s1.context.pdu_offset
        ≤ data.pdu_list.length + (if s1.world.watch = true then 0 else 1)
      ∧ s.context.pdu_offset ≤ s1.context.pdu_offset
      ∧ s1.context.pdu_offset ≤ s.context.pdu_offset + 1 := by
    rcases ho with ho | ⟨ho, ⟨hw1, hw2⟩ | hlt⟩
    · rw [ho]
      refine ⟨?_, le_refl _, by omega⟩
      cases hws : s.world.watch
      · rw [hw hws]
        rw [hws] at hb
        exact hb
      · rw [hws] at hb
        simp only [if_true] at hb
        split_ifs <;> omega
    · rw [hw1] at hb
      simp only [if_true] at hb
      rw [ho, Nat.mod_eq_of_lt (by omega), hw2]
      refine ⟨?_, by omega, le_refl _⟩
      simp only [Bool.false_eq_true, if_false]
      omega
    · rw [hdata] at hlt
      rw [ho, Nat.mod_eq_of_lt (by omega)]
      refine ⟨?_, by omega, le_refl _⟩
      split_ifs <;> omega
  exact ⟨⟨hd.trans hdata, key.1⟩, key.2⟩

theorem run_cursor_bound (env : Env) (data : test_data)
    (hlen : data.pdu_list.length + 1 < 2 ^ 32) (es : List Event) :
    ∀ s s1 : Session, cursor_bound data s → run env es s = some s1 →
      cursor_bound data s1
        ∧ s.context.pdu_offset ≤ s1.context.pdu_offset
        ∧ s1.context.pdu_offset ≤ s.context.pdu_offset + es.length := by
  induction es with
  | nil =>
    intro s s1 hinv h
    simp only [run, Option.some.injEq] at h
    subst h
    exact ⟨hinv, le_refl _, by simp⟩
  | cons e es ih =>
    intro s s1 hinv h
    simp only [run] at h
    split at h
    · simp at h
    · rename_i s2 hd
      obtain ⟨hinv2, h1, h2⟩ := dispatch_cursor_bound env data e s s2 hlen hinv hd
      obtain ⟨hinv3, h3, h4⟩ := ih s2 s1 hinv2 h
      refine ⟨hinv3, le_trans h1 h3, ?_⟩
      simp only [List.length_cons]
      omega

theorem test_server_some (env : Env) (data : test_data) (w w2 : World) (ctx : context)
    (h : test_server env data w = .ok (ctx, w2)) :
    ∃ w1, create_context env data w = .ok (some ctx, w1)
      ∧ w2.watch = w1.watch := by
  unfold test_server at h
  split at h
  · simp at h
  · simp at h
  · rename_i ctx1 w1 hc
    simp only [Except.ok.injEq, Prod.mk.injEq] at h
    obtain ⟨rfl, rfl⟩ := h
    exact ⟨w1, hc, rfl⟩

/-- C4, counterexample. In the session `test_server` creates for
`/uhid/event/output` (one frame, terminator at index 1), the scheduled
`send_pdu` puts the cursor on the terminator, and a hangup on the channel
then makes `test_handler` advance it to 2, past the terminator. -/
theorem cursor_passes_terminator :
    test_server env_user (scenario "/uhid/event/output") World.start
        = .ok (output_session.context, output_session.world)
    ∧ run env_user [.idle (uhid_event_image ev_output).length, .channel G_IO_HUP none]
          output_session = some output_session_hangup
    ∧ script_length output_session_hangup.context.data.pdu_list = 1
    ∧ output_session_hangup.context.pdu_offset = 2
    ∧ ¬ (output_session_hangup.context.pdu_offset
          ≤ script_length output_session_hangup.context.data.pdu_list) := by
  refine ⟨rfl, ?_, by decide, rfl, by decide⟩
  simp only [run, dispatch_output_injection]
  rfl

/-- C4, as the source has it. Along every run of the event loop from a
freshly created session (the context `create_context` returns, or the session
`test_server` leaves), for a script array that fits 32-bit indexing, the
cursor `pdu_offset` never decreases, and every dispatched callback advances
it by at most one.  `send_pdu` and `test_handler` advance it without
looking for the terminator: a callback dispatched while the cursor is before
the terminator leaves it at most on the terminator, and nothing more is
guaranteed. -/
theorem pdu_offset_monotone (env : Env) (data : test_data) (s0 : Session)
    (hfresh : create_context env data World.start = .ok (some s0.context, s0.world)
      ∨ test_server env data World.start = .ok (s0.context, s0.world))
    (hlen : data.pdu_list.length + 1 < 2 ^ 32)
    (es es1 : List Event) (s1 s2 : Session)
    (h1 : run env es s0 = some s1) (h2 : run env es1 s1 = some s2) :
    s0.context.pdu_offset = 0
    ∧ s1.context.pdu_offset ≤ s2.context.pdu_offset
    ∧ s2.context.pdu_offset ≤ s1.context.pdu_offset + es1.length
    ∧ ∀ e s3, dispatch env e s2 = some s3 →
        s2.context.pdu_offset < script_length data.pdu_list →
        s2.context.pdu_offset ≤ s3.context.pdu_offset
          ∧ s3.context.pdu_offset ≤ script_length data.pdu_list := by
  have h0 : s0.context.pdu_offset = 0 ∧ s0.context.data = data := by
    rcases hfresh with h | h
    · obtain ⟨ho, -, hd, -⟩ := create_context_some env data _ _ _ h
      exact ⟨ho, hd⟩
    · obtain ⟨w1, hc, -⟩ := test_server_some env data _ _ _ h
      obtain ⟨ho, -, hd, -⟩ := create_context_some env data _ _ _ hc
      exact ⟨ho, hd⟩
  have hinv0 : cursor_bound data s0 := ⟨h0.2, by rw [h0.1]; exact Nat.zero_le _⟩
  obtain ⟨hinv1, -, -⟩ := run_cursor_bound env data hlen es s0 s1 hinv0 h1
  obtain ⟨hinv2, hle, hub⟩ := run_cursor_bound env data hlen es1 s1 s2 hinv1 h2
  refine ⟨h0.1, hle, hub, ?_⟩
  intro e s3 hd hlt
  obtain ⟨-, hmono, hstep⟩ := dispatch_cursor_bound env data e s2 s3 hlen hinv2 hd
  exact ⟨hmono, by omega⟩

/-- C4, at a concrete input: the `/uhid/event/output` session, before and
after a hangup on the channel. -/
theorem pdu_offset_monotone_witness :
    ∃ s2, run env_user [.channel G_IO_HUP none] output_session = some s2
      ∧ output_session.context.pdu_offset = 0
      ∧ output_session.context.pdu_offset ≤ s2.context.pdu_offset
      ∧ s2.context.pdu_offset ≤ output_session.context.pdu_offset
          + [Event.channel G_IO_HUP none].length
      ∧ ∀ e s3, dispatch env_user e s2 = some s3 →
          s2.context.pdu_offset < script_length (scenario "/uhid/event/output").pdu_list →
          s2.context.pdu_offset ≤ s3.context.pdu_offset
            ∧ s3.context.pdu_offset ≤ script_length (scenario "/uhid/event/output").pdu_list :=
  ⟨_, rfl,
    pdu_offset_monotone env_user (scenario "/uhid/event/output") output_session
      (Or.inr rfl) (by decide) [] [.channel G_IO_HUP none] output_session _ rfl rfl⟩

/-! ## The channel watch on data -/

theorem context_process_ok (idle_id : Nat) (ctx : context) (w : World)
    (h : ctx.pdu_offset < ctx.data.pdu_list.length) :
    ∃ r, context_process idle_id ctx w = .ok r := by
  unfold context_process
  rw [List.getElem?_eq_getElem h]
  simp only
  split_ifs <;> exact ⟨_, rfl⟩

/-- The data path of `test_handler` on an existing frame. -/
theorem test_handler_data (use_debug : Bool) (cond : Nat) (bytes : List Nat)
    (idle_id : Nat) (ctx : context) (w : World) (pdu : test_pdu)
    (hcond : cond &&& (G_IO_NVAL ||| G_IO_ERR ||| G_IO_HUP) = 0)
    (hbytes : 0 < bytes.length)
    (hpdu : ctx.data.pdu_list[ctx.pdu_offset]? = some pdu) :
    test_handler use_debug cond (some bytes) idle_id ctx w =
      if (bytes.length : Int) ≠ (pdu.size : Int) then .error .assertion
      else if ¬ (memcmp_eq bytes pdu.data pdu.size = true) then .error .assertion
      else
        match context_process idle_id
            { ctx with pdu_offset := (ctx.pdu_offset + 1) % 2 ^ 32 }
            (if use_debug then
              (w.call (.read ctx.fd)).call (.util_hexdump '>' bytes)
             else w.call (.read ctx.fd)) with
        | .error e => .error e
        | .ok (ctx, w) => .ok (ctx, w, true) := by
  have hpos : (0 : Int) < (bytes.length : Int) := by exact_mod_cast hbytes
  simp only [test_handler, hcond, hpdu, read_len, read_buf, ne_eq, not_true_eq_false,
    if_false, gt_iff_lt, hpos, not_true_eq_false]

theorem script_index (payloads : List (List Nat)) (i : Nat) (h : i ≤ payloads.length) :
    ∃ pdu, (payloads.map event ++ [terminator])[i]? = some pdu
      ∧ pdu.size = pdu.data.length
      ∧ (i = payloads.length → pdu = terminator)
      ∧ (i < payloads.length → 0 < pdu.size → pdu.valid = true) := by
  rcases Nat.lt_or_eq_of_le h with hlt | heq
  · refine ⟨event payloads[i], ?_, rfl, ?_, fun _ _ => rfl⟩
    · rw [List.getElem?_append_left (by simpa using hlt)]
      simp [hlt]
    · intro hi
      omega
  · refine ⟨terminator, ?_, rfl, fun _ => rfl, ?_⟩
    · subst heq
      have : payloads.length = (payloads.map event).length := by simp
      rw [this, List.getElem?_append_right (le_refl _)]
      simp
    · intro hi
      omega

theorem memcmp_eq_iff (a b : List Nat) (n : Nat) (ha : a.length = n) (hb : b.length = n) :
    memcmp_eq a b n = true ↔ a = b := by
  unfold memcmp_eq
  rw [List.take_of_length_le (le_of_eq ha), List.take_of_length_le (le_of_eq hb)]
  simp

/-- C3. For a session whose script was built by `define_test_device`, at any
cursor position up to the terminator, when the watch fires without error
condition and `read` returns `len > 0` bytes: `test_handler` passes its
assertions exactly when `len` is the size of the frame at the cursor and the
bytes read are the payload of that frame; in every other case an assertion
fails.  On the terminator (size 0) every such read fails an assertion. -/
theorem test_handler_accepts_iff (use_debug : Bool) (cond : Nat) (bytes : List Nat)
    (idle_id : Nat) (ctx : context) (w : World) (name : String) (function : test_func)
    (device : Option test_device) (payloads : List (List Nat))
    (hdata : ctx.data = (define_test_device name function device (payloads.map event)).data)
    (hoff : ctx.pdu_offset ≤ payloads.length)
    (hcond : cond &&& (G_IO_NVAL ||| G_IO_ERR ||| G_IO_HUP) = 0)
    (hbytes : 0 < bytes.length) :
    ∃ pdu, ctx.data.pdu_list[ctx.pdu_offset]? = some pdu
      ∧ ((∃ r, test_handler use_debug cond (some bytes) idle_id ctx w = .ok r)
          ↔ (bytes.length = pdu.size ∧ bytes = pdu.data))
      ∧ (¬ (bytes.length = pdu.size ∧ bytes = pdu.data) →
          test_handler use_debug cond (some bytes) idle_id ctx w = .error .assertion)
      ∧ (ctx.pdu_offset = payloads.length →
          pdu = terminator
          ∧ test_handler use_debug cond (some bytes) idle_id ctx w = .error .assertion) := by
  have hlist : ctx.data.pdu_list = payloads.map event ++ [terminator] := by
    rw [hdata]
    rfl
  obtain ⟨pdu, hpdu, hsize, hterm, -⟩ := script_index payloads ctx.pdu_offset hoff
  rw [← hlist] at hpdu
  have hnf := test_handler_data use_debug cond bytes idle_id ctx w pdu hcond hbytes hpdu
  have hbad : ¬ (bytes.length = pdu.size ∧ bytes = pdu.data) →
      test_handler use_debug cond (some bytes) idle_id ctx w = .error .assertion := by
    intro hne
    rw [hnf]
    by_cases hl : (bytes.length : Int) = (pdu.size : Int)
    · have hl2 : bytes.length = pdu.size := by exact_mod_cast hl
      have hm : ¬ (memcmp_eq bytes pdu.data pdu.size = true) := by
        rw [memcmp_eq_iff bytes pdu.data pdu.size hl2 hsize.symm]
        exact fun hb => hne ⟨hl2, hb⟩
      simp [hl, hm]
    · simp [hl]
  refine ⟨pdu, hpdu, ⟨?_, ?_⟩, hbad, ?_⟩
  · rintro ⟨r, hr⟩
    by_contra hne
    rw [hbad hne] at hr
    simp at hr
  · rintro ⟨hl, hb⟩
    have hm : memcmp_eq bytes pdu.data pdu.size = true :=
      (memcmp_eq_iff bytes pdu.data pdu.size hl hsize.symm).2 hb
    have hlt : ctx.pdu_offset < payloads.length := by
      rcases Nat.lt_or_eq_of_le hoff with h | h
      · exact h
      · have hz : pdu.size = 0 := by rw [hterm h]; rfl
        omega
    have hin : (ctx.pdu_offset + 1) % 2 ^ 32 < ctx.data.pdu_list.length := by
      rw [hlist]
      simp only [List.length_append, List.length_map, List.length_singleton]
      have := Nat.mod_le (ctx.pdu_offset + 1) (2 ^ 32)
      omega
    obtain ⟨⟨c1, w1⟩, hcp⟩ := context_process_ok idle_id
      { ctx with pdu_offset := (ctx.pdu_offset + 1) % 2 ^ 32 }
      (if use_debug then
        (w.call (.read ctx.fd)).call (.util_hexdump '>' bytes)
       else w.call (.read ctx.fd)) hin
    refine ⟨(c1, w1, true), ?_⟩
    rw [hnf, hcp]
    simp [hl, hm]
  · intro hend
    have ht := hterm hend
    refine ⟨ht, hbad ?_⟩
    rintro ⟨hl, -⟩
    have hz : pdu.size = 0 := by rw [ht]; rfl
    omega

/-- C3, at a concrete input: the `/uhid/command/destroy` script with the
cursor on its frame, and four bytes read. -/
theorem test_handler_accepts_iff_witness :
    ∃ pdu, (scenario "/uhid/command/destroy").pdu_list[0]? = some pdu
      ∧ ((∃ r, test_handler false G_IO_IN (some [1, 0, 0, 0]) 2
              { uhid := 1, source := 1, process := 0, fd := 4, pdu_offset := 0,
                data := scenario "/uhid/command/destroy" } World.start = .ok r)
          ↔ ([1, 0, 0, 0].length = pdu.size ∧ [1, 0, 0, 0] = pdu.data))
      ∧ (¬ ([1, 0, 0, 0].length = pdu.size ∧ [1, 0, 0, 0] = pdu.data) →
          test_handler false G_IO_IN (some [1, 0, 0, 0]) 2
              { uhid := 1, source := 1, process := 0, fd := 4, pdu_offset := 0,
                data := scenario "/uhid/command/destroy" } World.start
            = .error .assertion)
      ∧ (0 = [uhid_event_image ev_destroy].length →
          pdu = terminator
          ∧ test_handler false G_IO_IN (some [1, 0, 0, 0]) 2
              { uhid := 1, source := 1, process := 0, fd := 4, pdu_offset := 0,
                data := scenario "/uhid/command/destroy" } World.start
            = .error .assertion) :=
  test_handler_accepts_iff false G_IO_IN [1, 0, 0, 0] 2
    { uhid := 1, source := 1, process := 0, fd := 4, pdu_offset := 0,
      data := scenario "/uhid/command/destroy" } World.start
    "/uhid/command/destroy" .test_client none [uhid_event_image ev_destroy]
    rfl (by decide) (by decide) (by decide)

end TestUhid
